import Mathlib

/-!
# Shallow embedding of the `fileuploaders` service

This file embeds the upload/retrieve/delete lifecycle of the file-upload
service (Express + Mongoose + GridFS) and proves the specification claims
about it.  The embedding follows the source files:

* `models/File.js` (src/unnamed/part_002): the Mongoose schema — field
  constraints, the category enumeration, defaults, trimming.
* `config/gridfs.js` (src/unnamed/part_001, lines 452–624): the blob store
  adapter — `uploadToGridFS`, `downloadFromGridFS`, `deleteFromGridFS`,
  with 255 KiB chunking.
* `controllers/fileController.js` (src/unnamed/part_001, lines 34–451):
  the orchestrator — `uploadFile`, `uploadMultipleFiles`, `getAllFiles`,
  `getFileById`, `downloadFile`, `viewFile`, `deleteFile`,
  `getFilesByCategory`, `formatFileSize`.
* `middleware/upload.js`: the Multer `fileFilter` (allowed MIME types).
* `server.js` (src/unnamed/part_000): the error-handling middleware.

Bytes are lists of naturals; the response objects mirror the JSON object
literals of the controller, field by field, so that claims about which
keys a response contains are claims about the embedded code.
-/

namespace FileUploaders

/-- A byte sequence (an uploaded file's contents). -/
abbrev Bytes := List Nat

/-- Opaque blob identifiers (GridFS ObjectIds).  In MongoDB an ObjectId is
always a truthy value, which matters for the `if (file.gridfsId)` guard in
`deleteFile`: the guard is always taken when the field is present. -/
abbrev BlobId := Nat

/-- Metadata record identifiers (Mongo `_id`s). -/
abbrev RecordId := Nat

/-! ## GridFS blob store (`config/gridfs.js`) -/

/-- `chunkSizeBytes: 255 * 1024` from the GridFS bucket configuration. -/
def chunkSizeBytes : Nat := 255 * 1024

/-- Chunk a byte sequence into pieces of `k` bytes, the way the GridFS
bucket stores an uploaded buffer.  `fuel` is an upper bound on the number
of chunks; it is instantiated with the buffer length, which suffices for
any positive `k`. -/
def gridChunksGo (k : Nat) : Nat → Bytes → List Bytes
  | _, [] => []
  | 0, l => [l]
  | fuel + 1, a :: l => ((a :: l).take k) :: gridChunksGo k fuel ((a :: l).drop k)

/-- The chunks GridFS stores for a buffer (255 KiB pieces). -/
def gridChunks (buffer : Bytes) : List Bytes :=
  gridChunksGo chunkSizeBytes buffer.length buffer

/-- The sidecar metadata the controller passes to `uploadToGridFS`
(`metadata: { category, description }`; the multi-upload passes only the
category).  Diagnostic only — the FileRecord is authoritative. -/
structure Sidecar where
  category : Option String
  description : Option String
  deriving Repr, DecidableEq

/-- A stored blob: its chunks, declared content type, filename, sidecar. -/
structure Blob where
  chunks : List Bytes
  contentType : String
  filename : String
  metadata : Sidecar
  deriving Repr, DecidableEq

/-- The GridFS bucket state.  `available` models whether
`getGridFSBucket()` returns a bucket (`null` when the connection is not
ready); every adapter function first checks it. -/
structure BlobStore where
  available : Bool
  blobs : List (BlobId × Blob)
  nextId : BlobId
  deriving Repr, DecidableEq

/-- `uploadToGridFS(fileBuffer, filename, options)`: rejects when the
bucket is not initialized, otherwise stores the chunked buffer under a
fresh id and resolves with that id.  `options.contentType ||
'application/octet-stream'` is the JS `||` default. -/
def uploadToGridFS (bs : BlobStore) (buffer : Bytes) (filename : String)
    (contentType : String) (metadata : Sidecar) :
    Except String (BlobId × BlobStore) :=
  if bs.available then
    let blob : Blob :=
      { chunks := gridChunks buffer
        contentType := if contentType = "" then "application/octet-stream" else contentType
        filename := filename
        metadata := metadata }
    .ok (bs.nextId,
      { bs with blobs := (bs.nextId, blob) :: bs.blobs, nextId := bs.nextId + 1 })
  else
    .error "GridFS bucket not initialized"

/-- Look a blob up by id (the download stream's source). -/
def findBlob (bs : BlobStore) (id : BlobId) : Option Blob :=
  (bs.blobs.find? (fun p => p.1 == id)).map Prod.snd

/-- `downloadFromGridFS(fileId)`: rejects when the bucket is not
initialized; the download stream errors when no blob has the id
(the driver's file-not-found error); otherwise the chunks are
concatenated in order into one buffer. -/
def downloadFromGridFS (bs : BlobStore) (id : BlobId) : Except String Bytes :=
  if bs.available then
    match findBlob bs id with
    | some b => .ok b.chunks.flatten
    | none => .error ("FileNotFound: file id " ++ toString id ++ " was not found")
  else
    .error "GridFS bucket not initialized"

/-- `deleteFromGridFS(fileId)`: throws when the bucket is not initialized;
`bucket.delete` throws the driver's file-not-found error when the blob is
absent (the adapter does not catch it); otherwise the blob is removed. -/
def deleteFromGridFS (bs : BlobStore) (id : BlobId) : Except String BlobStore :=
  if bs.available then
    if (bs.blobs.find? (fun p => p.1 == id)).isSome then
      .ok { bs with blobs := bs.blobs.filter (fun p => p.1 != id) }
    else
      .error ("FileNotFound: file id " ++ toString id ++ " was not found")
  else
    .error "GridFS bucket not initialized"

/-! ## The Mongoose `File` model (`models/File.js`) -/

/-- The closed category enumeration of the schema. -/
def categoryEnum : List String :=
  ["id_front", "id_back", "passport", "drivers_license", "utility_bill",
   "bank_statement", "other"]

/-- A metadata record (one document of the `File` collection). -/
structure FileRecord where
  id : RecordId
  originalName : String
  mimeType : String
  size : Nat
  category : String
  description : String
  gridfsId : BlobId
  isGridFS : Bool
  uploadDate : Nat
  deriving Repr, DecidableEq

/-- JavaScript's `String.prototype.trim`: strip leading and trailing
whitespace. -/
def jsTrim (s : String) : String :=
  ⟨((s.data.dropWhile Char.isWhitespace).reverse.dropWhile Char.isWhitespace).reverse⟩

/-- The schema's `trim: true` setters on `originalName` and `description`,
applied when the document is saved. -/
def normalizeRecord (f : FileRecord) : FileRecord :=
  { f with originalName := jsTrim f.originalName, description := jsTrim f.description }

/-- The schema validators run by `save()`: `originalName` required and at
most 500 characters, `mimeType` required, the category `enum`, and
`description` at most 1000 characters.  Returns the violated-field
messages (empty list: valid). -/
def validateFileRecord (f : FileRecord) : List String :=
  (if f.originalName = "" then ["File name is required"] else []) ++
  (if 500 < f.originalName.length then ["File name cannot exceed 500 characters"] else []) ++
  (if f.mimeType = "" then ["MIME type is required"] else []) ++
  (if categoryEnum.contains f.category then []
   else ["`" ++ f.category ++ "` is not a valid enum value for path `category`"]) ++
  (if 1000 < f.description.length then ["Description cannot exceed 1000 characters"] else [])

/-- The metadata collection plus the id counter used when a new document
is constructed. -/
structure MetaStore where
  records : List FileRecord
  nextId : RecordId
  deriving Repr, DecidableEq

/-- `file.save()`: applies the trim setters, runs the validators, and on
success inserts the document; a validation failure rejects with a
`ValidationError` message and writes nothing. -/
def saveFile (ms : MetaStore) (f : FileRecord) :
    Except String (FileRecord × MetaStore) :=
  let n := normalizeRecord f
  match validateFileRecord n with
  | [] => .ok (n, { records := n :: ms.records, nextId := ms.nextId + 1 })
  | e :: _ => .error ("File validation failed: " ++ e)

/-- `File.findById(id)`. -/
def findRecord (ms : MetaStore) (id : RecordId) : Option FileRecord :=
  ms.records.find? (fun r => r.id == id)

/-- `File.findByIdAndDelete(id)`: the store with that document removed. -/
def deleteRecord (ms : MetaStore) (id : RecordId) : MetaStore :=
  { ms with records := ms.records.filter (fun r => r.id != id) }

/-! ## System state and requests -/

/-- The whole service state: the two stores, whether
`ensureConnection()` can reach the database, and the clock used for
`uploadDate` defaults. -/
structure Sys where
  blob : BlobStore
  meta : MetaStore
  dbReady : Bool
  now : Nat
  deriving Repr, DecidableEq

/-- One multipart file as Multer delivers it (`req.file` / an element of
`req.files`): original name, declared MIME type, byte size, buffer. -/
structure UploadReq where
  originalname : String
  mimetype : String
  size : Nat
  buffer : Bytes
  deriving Repr, DecidableEq

/-- The non-file body fields of an upload request (`req.body.category`,
`req.body.description`), each possibly absent. -/
structure UploadBody where
  category : Option String
  description : Option String
  deriving Repr, DecidableEq

/-- JavaScript's `x || d` applied to a possibly-absent string: absent and
the empty string are both falsy. -/
def jsOr (x : Option String) (d : String) : String :=
  match x with
  | none => d
  | some s => if s = "" then d else s

/-! ## Response views (the JSON object literals of the controller)

The controller builds each response object literally; we embed those
objects as association lists of key/value pairs so that claims about
which fields a response exposes are claims about the code. -/

/-- A JSON-ish value appearing in a response field. -/
inductive JVal where
  | s (v : String)
  | n (v : Nat)
  | b (v : Bool)
  deriving Repr, DecidableEq

/-- A JSON object: ordered key/value pairs. -/
abbrev JObj := List (String × JVal)

/-- The keys an object exposes. -/
def jKeys (o : JObj) : List String := o.map Prod.fst

/-- The single-upload success view (`uploadFile`, lines 93–101):
`{ id, originalName, mimeType, size, category, description, uploadDate }`. -/
def uploadFileView (f : FileRecord) : JObj :=
  [("id", .n f.id), ("originalName", .s f.originalName),
   ("mimeType", .s f.mimeType), ("size", .n f.size),
   ("category", .s f.category), ("description", .s f.description),
   ("uploadDate", .n f.uploadDate)]

/-- The multi-upload success view (`uploadMultipleFiles`, lines 159–166):
`{ id, originalName, mimeType, size, category, uploadDate }` — note that
`description` is not among its fields. -/
def multiUploadView (f : FileRecord) : JObj :=
  [("id", .n f.id), ("originalName", .s f.originalName),
   ("mimeType", .s f.mimeType), ("size", .n f.size),
   ("category", .s f.category), ("uploadDate", .n f.uploadDate)]

/-! ## `formatFileSize` (controller lines 445–451) -/

/-- The exponent `i = Math.floor(Math.log(bytes) / Math.log(1024))`: the
largest `i` with `1024 ^ i ≤ bytes`, computed by repeated division (the
fuel argument bounds the recursion depth and `bytes` itself is always
enough fuel). -/
def sizeExpGo : Nat → Nat → Nat
  | 0, _ => 0
  | fuel + 1, bytes => if bytes < 1024 then 0 else 1 + sizeExpGo fuel (bytes / 1024)

/-- `Math.floor(Math.log(bytes) / Math.log(1024))` for a positive byte
count. -/
def sizeExp (bytes : Nat) : Nat := sizeExpGo bytes bytes

/-- `parseFloat(x.toFixed(2)).toString()` for the nonnegative value
`bytes / 1024^i`, carried out exactly: `scaled` is the value times 100
rounded to the nearest integer (ties up), and trailing zero decimals are
dropped the way `parseFloat` drops them. -/
def renderFixed2 (scaled : Nat) : String :=
  if scaled % 100 = 0 then toString (scaled / 100)
  else if scaled % 10 = 0 then
    toString (scaled / 100) ++ "." ++ toString (scaled / 10 % 10)
  else
    toString (scaled / 100) ++ "." ++ toString (scaled / 10 % 10) ++ toString (scaled % 10)

/-- The unit names array `['Bytes', 'KB', 'MB', 'GB']`. -/
def sizeUnits : List String := ["Bytes", "KB", "MB", "GB"]

/-- `formatFileSize(bytes)`: `'0 Bytes'` for zero, otherwise the value
scaled by `1024^i` printed with up to two decimals and the `i`-th unit
name (indexing past the array would print `undefined`, as in JS). -/
def formatFileSize (bytes : Nat) : String :=
  if bytes = 0 then "0 Bytes"
  else
    let i := sizeExp bytes
    let den := 1024 ^ i
    let scaled := (2 * (bytes * 100) + den) / (2 * den)
    renderFixed2 scaled ++ " " ++ sizeUnits.getD i "undefined"

/-- The listing view (`getAllFiles`, `getFileById`, `getFilesByCategory`):
`{ id, originalName, mimeType, size, sizeFormatted, category, description,
uploadDate }`. -/
def listFileView (f : FileRecord) : JObj :=
  [("id", .n f.id), ("originalName", .s f.originalName),
   ("mimeType", .s f.mimeType), ("size", .n f.size),
   ("sizeFormatted", .s (formatFileSize f.size)),
   ("category", .s f.category), ("description", .s f.description),
   ("uploadDate", .n f.uploadDate)]

/-! ## Controller endpoints (`controllers/fileController.js`) -/

/-- The message `ensureConnection()` rejects with when the database cannot
be reached (any connection error lands in the controller's catch). -/
def connFailMsg : String := "MONGODB_URI is not defined"

/-- Response of the single-upload endpoint: HTTP status, the `success`
flag, the `message`, the optional `error` detail and the optional `file`
view — exactly the fields the controller writes. -/
structure UploadResp where
  status : Nat
  success : Bool
  message : String
  error : Option String
  file : Option JObj
  deriving Repr, DecidableEq

/-- The document the controller constructs with `new File({...})` before
saving: `category: category || 'other'`, `description: description || ''`,
`gridfsId` from the GridFS result, `isGridFS: true`; the model assigns the
id and defaults `uploadDate` to now. -/
def mkUploadRecord (f : UploadReq) (body : UploadBody)
    (id : RecordId) (bid : BlobId) (now : Nat) : FileRecord :=
  { id := id
    originalName := f.originalname
    mimeType := f.mimetype
    size := f.size
    category := jsOr body.category "other"
    description := jsOr body.description ""
    gridfsId := bid
    isGridFS := true
    uploadDate := now }

/-- `uploadFile` (lines 52–112): ensure the connection, reject a missing
file with 400, write the blob, construct and save the record, answer 201
with the public view; any thrown error answers 500 with the error
message. -/
def uploadFile (s : Sys) (file : Option UploadReq) (body : UploadBody) :
    UploadResp × Sys :=
  if s.dbReady then
    match file with
    | none =>
      ({ status := 400, success := false, message := "No file uploaded",
         error := none, file := none }, s)
    | some f =>
      match uploadToGridFS s.blob f.buffer f.originalname f.mimetype
          { category := body.category, description := body.description } with
      | .error e =>
        ({ status := 500, success := false, message := "Error uploading file",
           error := some e, file := none }, s)
      | .ok (bid, bs) =>
        match saveFile s.meta (mkUploadRecord f body s.meta.nextId bid s.now) with
        | .error e =>
          ({ status := 500, success := false, message := "Error uploading file",
             error := some e, file := none }, { s with blob := bs })
        | .ok (rec, ms) =>
          ({ status := 201, success := true,
             message := "File uploaded successfully",
             error := none, file := some (uploadFileView rec) },
           { s with blob := bs, meta := ms })
  else
    ({ status := 500, success := false, message := "Error uploading file",
       error := some connFailMsg, file := none }, s)

/-- A per-item failure entry of the multi-upload response:
`{ filename: file.originalname, error: fileError.message }`. -/
structure FileError where
  filename : String
  error : String
  deriving Repr, DecidableEq

/-- Response of the multi-upload endpoint.  `errors` mirrors
`errors.length > 0 ? errors : undefined`: the key is absent when no item
failed. -/
structure MultiResp where
  status : Nat
  success : Bool
  message : String
  files : List JObj
  errors : Option (List FileError)
  deriving Repr, DecidableEq

/-- One iteration of the multi-upload loop (lines 134–177): write the
blob (the sidecar carries only the shared category), construct and save
the record; either outcome is caught per item, so a failure leaves the
loop running.  A failure after the blob write keeps the written blob
(the documented orphaning gap). -/
def uploadOneOfMany (body : UploadBody) (now : Nat)
    (st : BlobStore × MetaStore) (f : UploadReq) :
    (BlobStore × MetaStore) × Except FileError JObj :=
  match uploadToGridFS st.1 f.buffer f.originalname f.mimetype
      { category := body.category, description := none } with
  | .error e => (st, .error { filename := f.originalname, error := e })
  | .ok (bid, bs) =>
    match saveFile st.2 (mkUploadRecord f body st.2.nextId bid now) with
    | .error e => ((bs, st.2), .error { filename := f.originalname, error := e })
    | .ok (rec, ms) => ((bs, ms), .ok (multiUploadView rec))

/-- The multi-upload loop: process the payloads in order, collecting the
success views and the failure entries in their encounter order. -/
def uploadLoop (body : UploadBody) (now : Nat) :
    List UploadReq → BlobStore × MetaStore →
    (List JObj × List FileError) × (BlobStore × MetaStore)
  | [], st => (([], []), st)
  | f :: rest, st =>
    let step := uploadOneOfMany body now st f
    let next := uploadLoop body now rest step.1
    match step.2 with
    | .ok v => ((v :: next.1.1, next.1.2), next.2)
    | .error e => ((next.1.1, e :: next.1.2), next.2)

/-- `uploadMultipleFiles` (lines 118–194): ensure the connection, reject
an empty file list with 400, run the loop, and answer 201 with
`success: true` regardless of how many items failed. -/
def uploadMultipleFiles (s : Sys) (files : List UploadReq) (body : UploadBody) :
    MultiResp × Sys :=
  if s.dbReady then
    match files with
    | [] =>
      ({ status := 400, success := false, message := "No files uploaded",
         files := [], errors := none }, s)
    | _ :: _ =>
      let r := uploadLoop body s.now files (s.blob, s.meta)
      ({ status := 201, success := true,
         message := toString r.1.1.length ++ " file(s) uploaded successfully",
         files := r.1.1,
         errors := if r.1.2.isEmpty then none else some r.1.2 },
       { s with blob := r.2.1, meta := r.2.2 })
  else
    ({ status := 500, success := false, message := "Error uploading files",
       files := [], errors := none }, s)

/-- The `.sort({ uploadDate: -1 })` order: newer (larger) dates first. -/
def byDateDesc (a b : FileRecord) : Prop := b.uploadDate ≤ a.uploadDate

instance : DecidableRel byDateDesc :=
  fun a b => inferInstanceAs (Decidable (b.uploadDate ≤ a.uploadDate))

instance : IsTotal FileRecord byDateDesc :=
  ⟨fun a b => (Nat.le_total b.uploadDate a.uploadDate).imp id id⟩

instance : IsTrans FileRecord byDateDesc :=
  ⟨fun _ _ _ hab hbc => Nat.le_trans hbc hab⟩

/-- `File.find(query).sort({ uploadDate: -1 })` over the embedded store. -/
def sortByDateDesc (l : List FileRecord) : List FileRecord :=
  List.insertionSort byDateDesc l

/-- Response of the listing endpoints (`getAllFiles`,
`getFilesByCategory`): status, `success`, `count`, the echoed `category`
for the filtered endpoint, the views, and the `message`/`error` detail of
the failure branch. -/
structure ListResp where
  status : Nat
  success : Bool
  count : Nat
  category : Option String
  files : List JObj
  message : Option String
  deriving Repr, DecidableEq

/-- `getAllFiles` (lines 200–234): all records, newest first, mapped to
the listing view. -/
def getAllFiles (s : Sys) : ListResp × Sys :=
  if s.dbReady then
    let files := sortByDateDesc s.meta.records
    ({ status := 200, success := true, count := files.length, category := none,
       files := files.map listFileView, message := none }, s)
  else
    ({ status := 500, success := false, count := 0, category := none,
       files := [], message := some "Error fetching files" }, s)

/-- `getFilesByCategory` (lines 405–440): the records whose `category`
equals the path parameter, newest first, mapped to the listing view; an
unmatched category is simply an empty result, not an error. -/
def getFilesByCategory (s : Sys) (category : String) : ListResp × Sys :=
  if s.dbReady then
    let files := sortByDateDesc (s.meta.records.filter (fun r => r.category == category))
    ({ status := 200, success := true, count := files.length,
       category := some category,
       files := files.map listFileView, message := none }, s)
  else
    ({ status := 500, success := false, count := 0, category := some category,
       files := [], message := some "Error fetching files" }, s)

/-- Response of `getFileById`. -/
structure GetResp where
  status : Nat
  success : Bool
  file : Option JObj
  message : Option String
  deriving Repr, DecidableEq

/-- `getFileById` (lines 240–275): 404 when the id is unknown, otherwise
the listing view of the one record. -/
def getFileById (s : Sys) (id : RecordId) : GetResp × Sys :=
  if s.dbReady then
    match findRecord s.meta id with
    | none =>
      ({ status := 404, success := false, file := none,
         message := some "File not found" }, s)
    | some f =>
      ({ status := 200, success := true, file := some (listFileView f),
         message := none }, s)
  else
    ({ status := 500, success := false, file := none,
       message := some "Error fetching file" }, s)

/-- How the bytes of a download/view response are presented. -/
inductive Disposition where
  | attachment
  | inline
  deriving Repr, DecidableEq

/-- Response of `downloadFile`/`viewFile`: on success the headers
(Content-Type from the record, the disposition with the original
filename, Content-Length) and the body bytes. -/
structure BytesResp where
  status : Nat
  success : Bool
  contentType : Option String
  disposition : Option (Disposition × String)
  contentLength : Option Nat
  body : Option Bytes
  message : Option String
  deriving Repr, DecidableEq

/-- `downloadFile` (lines 281–316): look the record up (404 when absent),
fetch the blob bytes, answer them with attachment disposition; a GridFS
error answers 500. -/
def downloadFile (s : Sys) (id : RecordId) : BytesResp × Sys :=
  if s.dbReady then
    match findRecord s.meta id with
    | none =>
      ({ status := 404, success := false, contentType := none,
         disposition := none, contentLength := none, body := none,
         message := some "File not found" }, s)
    | some f =>
      match downloadFromGridFS s.blob f.gridfsId with
      | .error e =>
        ({ status := 500, success := false, contentType := none,
           disposition := none, contentLength := none, body := none,
           message := some e }, s)
      | .ok buf =>
        ({ status := 200, success := true, contentType := some f.mimeType,
           disposition := some (.attachment, f.originalName),
           contentLength := some buf.length, body := some buf,
           message := none }, s)
  else
    ({ status := 500, success := false, contentType := none,
       disposition := none, contentLength := none, body := none,
       message := some "Error downloading file" }, s)

/-- `viewFile` (lines 322–355): as `downloadFile` but with inline
disposition. -/
def viewFile (s : Sys) (id : RecordId) : BytesResp × Sys :=
  if s.dbReady then
    match findRecord s.meta id with
    | none =>
      ({ status := 404, success := false, contentType := none,
         disposition := none, contentLength := none, body := none,
         message := some "File not found" }, s)
    | some f =>
      match downloadFromGridFS s.blob f.gridfsId with
      | .error e =>
        ({ status := 500, success := false, contentType := none,
           disposition := none, contentLength := none, body := none,
           message := some e }, s)
      | .ok buf =>
        ({ status := 200, success := true, contentType := some f.mimeType,
           disposition := some (.inline, f.originalName),
           contentLength := some buf.length, body := some buf,
           message := none }, s)
  else
    ({ status := 500, success := false, contentType := none,
       disposition := none, contentLength := none, body := none,
       message := some "Error viewing file" }, s)

/-- Response of `deleteFile`. -/
structure DeleteResp where
  status : Nat
  success : Bool
  message : String
  error : Option String
  deriving Repr, DecidableEq

/-- `deleteFile` (lines 361–399): look the record up (404 when absent),
then `await deleteFromGridFS(file.gridfsId)` — the guard
`if (file.gridfsId)` is always taken because an ObjectId is truthy — and
only then remove the record.  An error thrown by the GridFS delete lands
in the catch: the response is 500 and the record is NOT removed. -/
def deleteFile (s : Sys) (id : RecordId) : DeleteResp × Sys :=
  if s.dbReady then
    match findRecord s.meta id with
    | none =>
      ({ status := 404, success := false, message := "File not found",
         error := none }, s)
    | some f =>
      match deleteFromGridFS s.blob f.gridfsId with
      | .error e =>
        ({ status := 500, success := false, message := "Error deleting file",
           error := some e }, s)
      | .ok bs =>
        ({ status := 200, success := true,
           message := "File deleted successfully", error := none },
         { s with blob := bs, meta := deleteRecord s.meta id })
  else
    ({ status := 500, success := false, message := "Error deleting file",
       error := some connFailMsg }, s)

/-! ## Multer middleware (`middleware/upload.js`) and the error handler
(`server.js`, lines 57–91) -/

/-- The allowed MIME types of the Multer `fileFilter`. -/
def allowedTypes : List String :=
  ["image/jpeg", "image/jpg", "image/png", "image/gif", "image/webp",
   "application/pdf", "application/msword",
   "application/vnd.openxmlformats-officedocument.wordprocessingml.document",
   "application/vnd.ms-excel",
   "application/vnd.openxmlformats-officedocument.spreadsheetml.sheet",
   "text/plain", "text/csv"]

/-- `fileFilter`: accept exactly the allowed MIME types. -/
def fileFilter (mimetype : String) : Bool := allowedTypes.contains mimetype

/-- The error message `fileFilter` rejects with. -/
def invalidTypeMessage (mimetype : String) : String :=
  "Invalid file type: " ++ mimetype ++ ". Allowed: images, PDF, Word, Excel, text files."

/-- `String.prototype.includes`: does the haystack contain the needle as
a contiguous substring? -/
def charsInclude (needle : List Char) : List Char → Bool
  | [] => needle.isEmpty
  | c :: rest => needle.isPrefixOf (c :: rest) || charsInclude needle rest

/-- `hay.includes(needle)` on strings. -/
def strIncludes (hay needle : String) : Bool := charsInclude needle.data hay.data

/-- An error reaching the Express error-handling middleware: Multer
errors carry a `code`, every error carries a message. -/
structure MulterError where
  code : Option String
  message : String
  deriving Repr, DecidableEq

/-- The error-handling middleware of `server.js`: oversize uploads and
invalid-file-type errors answer 400 with a message; Mongoose buffering
timeouts answer 503; anything else answers 500. -/
def errorMiddleware (err : MulterError) : UploadResp :=
  if err.code == some "LIMIT_FILE_SIZE" then
    { status := 400, success := false,
      message := "File too large. Maximum size is 100MB", error := none, file := none }
  else if strIncludes err.message "Invalid file type" then
    { status := 400, success := false, message := err.message,
      error := none, file := none }
  else
    { status := 500, success := false, message := err.message,
      error := none, file := none }

/-- The single-upload route `upload.single('file')` then `uploadFile`: a
file rejected by `fileFilter` aborts the request into the error
middleware before the controller runs, so the stores are untouched. -/
def handleSingleUpload (s : Sys) (file : Option UploadReq) (body : UploadBody) :
    UploadResp × Sys :=
  match file with
  | some f =>
    if fileFilter f.mimetype then uploadFile s (some f) body
    else (errorMiddleware { code := none, message := invalidTypeMessage f.mimetype }, s)
  | none => uploadFile s none body

/-! ## Derived characterizations used by the theorem statements -/

/-- The outcome of one multi-upload item, characterized independently of
the evolving store state: the item fails with the bucket-initialization
message when the bucket is unavailable, with the validation message when
its record is invalid, and succeeds otherwise.  (The validators never
read the id, blob id or date, so those arguments are fixed at 0.) -/
def itemOutcome (avail : Bool) (body : UploadBody) (f : UploadReq) : Option String :=
  if avail then
    match validateFileRecord (normalizeRecord (mkUploadRecord f body 0 0 0)) with
    | [] => none
    | e :: _ => some ("File validation failed: " ++ e)
  else
    some "GridFS bucket not initialized"

/-- Spec side, for comparison with the code's views: the FileRecord
fields of the spec's data model (§3) minus `blobId` — the fields the
spec's "public view (all fields except `blobId`)" consists of. -/
def specPublicFields : List String :=
  ["id", "originalName", "mimeType", "size", "category", "description", "uploadDate"]

/-! ## Concrete states and requests used by witnesses and
counterexamples -/

/-- An empty, initialized blob store. -/
def exBlob : BlobStore := { available := true, blobs := [], nextId := 10 }

/-- An empty metadata store. -/
def exMeta : MetaStore := { records := [], nextId := 1 }

/-- A fresh, fully connected system. -/
def exSys : Sys := { blob := exBlob, meta := exMeta, dbReady := true, now := 77 }

/-- The same system with the GridFS bucket unavailable. -/
def exSysNoGrid : Sys := { exSys with blob := { exBlob with available := false } }

/-- A small valid PNG upload. -/
def exFile : UploadReq :=
  { originalname := "a.png", mimetype := "image/png", size := 3, buffer := [1, 2, 3] }

/-- An upload payload whose original name is empty, so that saving its
record fails validation. -/
def exBadNameFile : UploadReq :=
  { originalname := "", mimetype := "image/png", size := 1, buffer := [7] }

/-- A body with a recognized category. -/
def exBody : UploadBody := { category := some "passport", description := some "hello" }

/-- A body with no category and no description. -/
def exBodyNone : UploadBody := { category := none, description := none }

/-- A body whose category is not in the schema enumeration. -/
def exBodyBogus : UploadBody := { category := some "bogus", description := none }

/-- A record whose referenced blob is absent from the blob store. -/
def exRecOrphan : FileRecord :=
  { id := 5, originalName := "x.pdf", mimeType := "application/pdf", size := 1,
    category := "other", description := "", gridfsId := 99, isGridFS := true,
    uploadDate := 3 }

/-- A system holding `exRecOrphan` while its blob is missing. -/
def exSysOrphan : Sys :=
  { blob := { available := true, blobs := [], nextId := 100 },
    meta := { records := [exRecOrphan], nextId := 6 }, dbReady := true, now := 8 }

/-! ## Helper lemmas -/

/-- Concatenating the chunks of a chunked buffer restores the buffer,
whatever the fuel. -/
theorem gridChunksGo_flatten (k : Nat) :
    ∀ (fuel : Nat) (l : Bytes), (gridChunksGo k fuel l).flatten = l := by
  intro fuel
  induction fuel with
  | zero => intro l; cases l <;> simp [gridChunksGo]
  | succ n ih =>
    intro l
    cases l with
    | nil => simp [gridChunksGo]
    | cons a t => simp [gridChunksGo, ih]

/-- GridFS chunking round-trips: flattening the stored chunks yields the
uploaded buffer. -/
theorem gridChunks_flatten (l : Bytes) : (gridChunks l).flatten = l :=
  gridChunksGo_flatten _ _ _

/-- A list is a prefix (in the executable sense) of itself followed by
anything. -/
theorem isPrefixOf_append (p rest : List Char) : p.isPrefixOf (p ++ rest) = true := by
  induction p with
  | nil => simp [List.isPrefixOf]
  | cons c cs ih => simp [List.isPrefixOf, ih]

/-- `charsInclude` holds whenever the needle is a prefix of the
haystack. -/
theorem charsInclude_of_isPrefixOf (needle hay : List Char)
    (h : needle.isPrefixOf hay = true) : charsInclude needle hay = true := by
  cases hay with
  | nil =>
    cases needle with
    | nil => rfl
    | cons c cs => simp [List.isPrefixOf] at h
  | cons c rest => simp [charsInclude, h]

/-- The `fileFilter` rejection message always contains the substring the
error middleware looks for. -/
theorem strIncludes_invalidType (m : String) :
    strIncludes (invalidTypeMessage m) "Invalid file type" = true := by
  apply charsInclude_of_isPrefixOf
  have hsplit : ("Invalid file type: " : String).data =
      ("Invalid file type" : String).data ++ (": " : String).data := by decide
  have : (invalidTypeMessage m).data =
      ("Invalid file type" : String).data ++
        ((": " : String).data ++ (m ++ ". Allowed: images, PDF, Word, Excel, text files.").data) := by
    simp [invalidTypeMessage, String.data_append, hsplit]
  rw [this]
  exact isPrefixOf_append _ _

end FileUploaders

namespace FileUploaders

/-! ## Claim theorems -/

/-- C8: the derived human-readable size string maps 0 bytes to
`"0 Bytes"`, 1536 bytes to `"1.5 KB"` and 1048576 bytes to `"1 MB"`
(1024-based units, two-decimal rounding). -/
theorem c8_size_formatting_ok :
    formatFileSize 0 = "0 Bytes" ∧ formatFileSize 1536 = "1.5 KB" ∧
    formatFileSize 1048576 = "1 MB" := by
  decide

/-- C2 counterexample: a delete of id 5 in a system whose FileRecord
exists but whose referenced blob (id 99) is missing from the blob store
answers 500, reports failure, and leaves the FileRecord in place — the
claim says the delete proceeds, removes the record and reports
success. -/
theorem c2_counterexample :
    (deleteFile exSysOrphan 5).1.status = 500 ∧
    (deleteFile exSysOrphan 5).1.success = false ∧
    (deleteFile exSysOrphan 5).2.meta.records = [exRecOrphan] := by
  decide

/-- C2 amended: when the FileRecord exists but its referenced blob is
missing from the (initialized) blob store, the delete does NOT proceed:
the driver's file-not-found error propagates, the response is a 500
failure, and neither store changes — the FileRecord is not removed. -/
theorem c2_blob_missing_delete_fails (s : Sys) (id : RecordId) (f : FileRecord)
    (hdb : s.dbReady = true) (hfind : findRecord s.meta id = some f)
    (hav : s.blob.available = true)
    (hmiss : findBlob s.blob f.gridfsId = none) :
    (deleteFile s id).1.status = 500 ∧ (deleteFile s id).1.success = false ∧
    (deleteFile s id).2 = s := by
  have hf : s.blob.blobs.find? (fun p => p.1 == f.gridfsId) = none := by
    simpa [findBlob] using hmiss
  simp [deleteFile, hdb, hfind, deleteFromGridFS, hav, hf]

/-- C2 witness: the amended statement at the concrete orphaned system. -/
theorem c2_blob_missing_delete_fails_witness :
    (deleteFile exSysOrphan 5).1.status = 500 ∧
    (deleteFile exSysOrphan 5).1.success = false ∧
    (deleteFile exSysOrphan 5).2 = exSysOrphan :=
  c2_blob_missing_delete_fails exSysOrphan 5 exRecOrphan rfl (by decide) rfl (by decide)

/-- C9: an upload whose declared content type is rejected by the Multer
`fileFilter` is answered 400 by the error middleware with the
invalid-file-type message, and the system state is untouched — no
FileRecord and no blob is created. -/
theorem c9_disallowed_type_rejected (s : Sys) (f : UploadReq) (body : UploadBody)
    (hbad : fileFilter f.mimetype = false) :
    (handleSingleUpload s (some f) body).1.status = 400 ∧
    (handleSingleUpload s (some f) body).1.success = false ∧
    (handleSingleUpload s (some f) body).1.message = invalidTypeMessage f.mimetype ∧
    (handleSingleUpload s (some f) body).2 = s := by
  simp [handleSingleUpload, hbad, errorMiddleware, strIncludes_invalidType]

/-- C9 witness: uploading an `application/x-executable` payload. -/
theorem c9_disallowed_type_rejected_witness :
    (handleSingleUpload exSys
        (some { exFile with mimetype := "application/x-executable" }) exBody).1.status = 400 ∧
    (handleSingleUpload exSys
        (some { exFile with mimetype := "application/x-executable" }) exBody).1.success = false ∧
    (handleSingleUpload exSys
        (some { exFile with mimetype := "application/x-executable" }) exBody).1.message =
      invalidTypeMessage "application/x-executable" ∧
    (handleSingleUpload exSys
        (some { exFile with mimetype := "application/x-executable" }) exBody).2 = exSys :=
  c9_disallowed_type_rejected exSys _ exBody (by decide)

/-- C10: with the database reachable, a multi-upload with at least one
file always answers 201 with `success: true` — however many items fail —
and only an empty file list is answered 400. -/
theorem c10_multi_status (s : Sys) (files : List UploadReq) (body : UploadBody)
    (hdb : s.dbReady = true) :
    (files ≠ [] → (uploadMultipleFiles s files body).1.status = 201 ∧
      (uploadMultipleFiles s files body).1.success = true) ∧
    (files = [] → (uploadMultipleFiles s files body).1.status = 400 ∧
      (uploadMultipleFiles s files body).1.success = false) := by
  constructor
  · intro hne
    match files, hne with
    | f :: rest, _ => simp [uploadMultipleFiles, hdb]
  · rintro rfl
    simp [uploadMultipleFiles, hdb]

/-- C10 witness: one file while the GridFS bucket is unavailable — every
payload fails, yet the response is a 201 success with zero records and
one error entry. -/
theorem c10_multi_status_witness :
    ((uploadMultipleFiles exSysNoGrid [exFile] exBody).1.status = 201 ∧
      (uploadMultipleFiles exSysNoGrid [exFile] exBody).1.success = true) ∧
    (uploadMultipleFiles exSysNoGrid [exFile] exBody).1.files = [] ∧
    (uploadMultipleFiles exSysNoGrid [exFile] exBody).1.errors =
      some [{ filename := "a.png", error := "GridFS bucket not initialized" }] :=
  ⟨(c10_multi_status exSysNoGrid [exFile] exBody rfl).1 (by decide), by decide⟩

/-- C1 counterexample: uploading with the unrecognized category `bogus`
does not store `other` — the schema's enum validator makes `save()`
throw, the response is 500, and no FileRecord is created. -/
theorem c1_counterexample :
    (uploadFile exSys (some exFile) exBodyBogus).1.status = 500 ∧
    (uploadFile exSys (some exFile) exBodyBogus).1.success = false ∧
    (uploadFile exSys (some exFile) exBodyBogus).2.meta.records = [] := by
  decide

/-- C1 amended: an absent (or empty) category field is replaced by the
default `other` in the created FileRecord; but a present category outside
the enumerated set makes the upload fail with a 500 validation error and
no FileRecord is created. -/
theorem c1_category_default (s : Sys) (f : UploadReq) (body : UploadBody)
    (hdb : s.dbReady = true) (hav : s.blob.available = true) :
    ((body.category = none ∨ body.category = some "") →
      (uploadFile s (some f) body).1.status = 201 →
      ∃ rec, (uploadFile s (some f) body).2.meta.records = rec :: s.meta.records ∧
        rec.category = "other") ∧
    (∀ c, body.category = some c → c ≠ "" → categoryEnum.contains c = false →
      (uploadFile s (some f) body).1.status = 500 ∧
      (uploadFile s (some f) body).2.meta.records = s.meta.records) := by
  constructor
  · intro hcat h201
    cases hval : validateFileRecord
        (normalizeRecord (mkUploadRecord f body s.meta.nextId s.blob.nextId s.now)) with
    | cons e es =>
      rw [uploadFile] at h201
      simp [hdb, uploadToGridFS, hav, saveFile, hval] at h201
    | nil =>
      refine ⟨normalizeRecord (mkUploadRecord f body s.meta.nextId s.blob.nextId s.now),
        ?_, ?_⟩
      · simp [uploadFile, hdb, uploadToGridFS, hav, saveFile, hval]
      · rcases hcat with h | h <;> simp [normalizeRecord, mkUploadRecord, jsOr, h]
  · intro c hc hcne hcen
    have hcatval :
        (normalizeRecord (mkUploadRecord f body s.meta.nextId s.blob.nextId s.now)).category
          = c := by
      simp [normalizeRecord, mkUploadRecord, jsOr, hc, hcne]
    have hne : validateFileRecord
        (normalizeRecord (mkUploadRecord f body s.meta.nextId s.blob.nextId s.now)) ≠ [] := by
      intro hnil
      rw [validateFileRecord, hcatval, hcen] at hnil
      simp at hnil
    obtain ⟨e, es, hcons⟩ := List.exists_cons_of_ne_nil hne
    constructor <;> simp [uploadFile, hdb, uploadToGridFS, hav, saveFile, hcons]

/-- C1 witness: an upload with no category field stores `other`. -/
theorem c1_category_default_witness :
    ∃ rec, (uploadFile exSys (some exFile) exBodyNone).2.meta.records =
      rec :: exSys.meta.records ∧ rec.category = "other" :=
  (c1_category_default exSys exFile exBodyNone rfl rfl).1 (Or.inl rfl) (by decide)

/-- C3: the blob is written before the metadata record — when the blob
write fails, the upload answers a 500 failure carrying the blob-store
error and the whole state (in particular the metadata store) is
unchanged; and whenever a record was created (201), it references a blob
present in the store holding exactly the uploaded bytes. -/
theorem c3_blob_write_first (s : Sys) (f : UploadReq) (body : UploadBody)
    (hdb : s.dbReady = true) :
    (s.blob.available = false →
      (uploadFile s (some f) body).1.status = 500 ∧
      (uploadFile s (some f) body).1.success = false ∧
      (uploadFile s (some f) body).1.error = some "GridFS bucket not initialized" ∧
      (uploadFile s (some f) body).2 = s) ∧
    ((uploadFile s (some f) body).1.status = 201 →
      ∃ rec blob,
        (uploadFile s (some f) body).2.meta.records = rec :: s.meta.records ∧
        findBlob (uploadFile s (some f) body).2.blob rec.gridfsId = some blob ∧
        blob.chunks.flatten = f.buffer) := by
  constructor
  · intro hnav
    simp [uploadFile, hdb, uploadToGridFS, hnav]
  · intro h201
    cases hav : s.blob.available with
    | false =>
      rw [uploadFile] at h201
      simp [hdb, uploadToGridFS, hav] at h201
    | true =>
      cases hval : validateFileRecord
          (normalizeRecord (mkUploadRecord f body s.meta.nextId s.blob.nextId s.now)) with
      | cons e es =>
        rw [uploadFile] at h201
        simp [hdb, uploadToGridFS, hav, saveFile, hval] at h201
      | nil =>
        refine ⟨normalizeRecord (mkUploadRecord f body s.meta.nextId s.blob.nextId s.now),
          { chunks := gridChunks f.buffer
            contentType := if f.mimetype = "" then "application/octet-stream" else f.mimetype
            filename := f.originalname
            metadata := { category := body.category, description := body.description } },
          ?_, ?_, ?_⟩
        · simp [uploadFile, hdb, uploadToGridFS, hav, saveFile, hval]
        · have hgid :
              (normalizeRecord (mkUploadRecord f body s.meta.nextId s.blob.nextId s.now)).gridfsId
                = s.blob.nextId := rfl
          simp [uploadFile, hdb, uploadToGridFS, hav, saveFile, hval, findBlob, hgid,
            List.find?]
        · exact gridChunks_flatten f.buffer

/-- C3 witness: the blob-store failure branch at a concrete system whose
GridFS bucket is unavailable. -/
theorem c3_blob_write_first_witness :
    (uploadFile exSysNoGrid (some exFile) exBody).1.status = 500 ∧
    (uploadFile exSysNoGrid (some exFile) exBody).1.success = false ∧
    (uploadFile exSysNoGrid (some exFile) exBody).1.error =
      some "GridFS bucket not initialized" ∧
    (uploadFile exSysNoGrid (some exFile) exBody).2 = exSysNoGrid :=
  (c3_blob_write_first exSysNoGrid exFile exBody rfl).1 rfl

/-- C6: a successful upload (status 201) round-trips — both the download
and the inline view of the created record's id return exactly the byte
sequence that was uploaded. -/
theorem c6_roundtrip (s : Sys) (f : UploadReq) (body : UploadBody)
    (hdb : s.dbReady = true) (hav : s.blob.available = true)
    (hval : validateFileRecord
      (normalizeRecord (mkUploadRecord f body s.meta.nextId s.blob.nextId s.now)) = []) :
    (uploadFile s (some f) body).1.status = 201 ∧
    (downloadFile (uploadFile s (some f) body).2 s.meta.nextId).1.status = 200 ∧
    (downloadFile (uploadFile s (some f) body).2 s.meta.nextId).1.body = some f.buffer ∧
    (viewFile (uploadFile s (some f) body).2 s.meta.nextId).1.body = some f.buffer := by
  have hid : (normalizeRecord (mkUploadRecord f body s.meta.nextId s.blob.nextId s.now)).id
      = s.meta.nextId := rfl
  have hgid :
      (normalizeRecord (mkUploadRecord f body s.meta.nextId s.blob.nextId s.now)).gridfsId
        = s.blob.nextId := rfl
  refine ⟨?_, ?_, ?_, ?_⟩ <;>
    simp [uploadFile, hdb, uploadToGridFS, hav, saveFile, hval, downloadFile, viewFile,
      findRecord, findBlob, downloadFromGridFS, hid, hgid, List.find?, gridChunks_flatten]

/-- C6 witness: a three-byte PNG round-trips through the concrete fresh
system. -/
theorem c6_roundtrip_witness :
    (uploadFile exSys (some exFile) exBody).1.status = 201 ∧
    (downloadFile (uploadFile exSys (some exFile) exBody).2 exSys.meta.nextId).1.status = 200 ∧
    (downloadFile (uploadFile exSys (some exFile) exBody).2 exSys.meta.nextId).1.body =
      some exFile.buffer ∧
    (viewFile (uploadFile exSys (some exFile) exBody).2 exSys.meta.nextId).1.body =
      some exFile.buffer :=
  c6_roundtrip exSys exFile exBody rfl rfl (by decide)

/-- C7: with the database reachable, the category listing answers 200
with `success: true`, and its views are exactly the records whose
category equals the filter, arranged in descending `uploadDate` order; a
category matching nothing yields the empty list, still as a success. -/
theorem c7_category_filter (s : Sys) (cat : String) (hdb : s.dbReady = true) :
    (getFilesByCategory s cat).1.status = 200 ∧
    (getFilesByCategory s cat).1.success = true ∧
    (∃ rs : List FileRecord,
      (getFilesByCategory s cat).1.files = rs.map listFileView ∧
      rs.Perm (s.meta.records.filter (fun r => r.category == cat)) ∧
      List.Pairwise byDateDesc rs) ∧
    ((∀ r ∈ s.meta.records, r.category ≠ cat) →
      (getFilesByCategory s cat).1.files = []) := by
  refine ⟨by simp [getFilesByCategory, hdb], by simp [getFilesByCategory, hdb], ?_, ?_⟩
  · refine ⟨sortByDateDesc (s.meta.records.filter (fun r => r.category == cat)),
      ?_, ?_, ?_⟩
    · simp [getFilesByCategory, hdb]
    · exact List.perm_insertionSort _ _
    · exact List.sorted_insertionSort byDateDesc _
  · intro hnone
    have hfil : s.meta.records.filter (fun r => r.category == cat) = [] := by
      refine List.filter_eq_nil_iff.mpr ?_
      intro r hr
      simpa using hnone r hr
    simp [getFilesByCategory, hdb, sortByDateDesc, hfil]

/-- C7 witness: filtering the concrete one-record system by `other`
(matching) keeps the response well-formed, discharging the connectivity
hypothesis. -/
theorem c7_category_filter_witness :
    (getFilesByCategory exSysOrphan "other").1.status = 200 ∧
    (getFilesByCategory exSysOrphan "other").1.success = true ∧
    (∃ rs : List FileRecord,
      (getFilesByCategory exSysOrphan "other").1.files = rs.map listFileView ∧
      rs.Perm (exSysOrphan.meta.records.filter (fun r => r.category == "other")) ∧
      List.Pairwise byDateDesc rs) ∧
    ((∀ r ∈ exSysOrphan.meta.records, r.category ≠ "other") →
      (getFilesByCategory exSysOrphan "other").1.files = []) :=
  c7_category_filter exSysOrphan "other" rfl

/-- The record validators read only the name, MIME type, category and
description, so an item's validation result does not depend on the
assigned ids or the date. -/
theorem validate_mk_const (f : UploadReq) (body : UploadBody) (i b n : Nat) :
    validateFileRecord (normalizeRecord (mkUploadRecord f body i b n)) =
      validateFileRecord (normalizeRecord (mkUploadRecord f body 0 0 0)) := rfl

/-- The multi-upload view exposes the record's (trimmed) original name
under the `originalName` key. -/
theorem multiUploadView_lookup_name (rec : FileRecord) :
    (multiUploadView rec).lookup "originalName" = some (.s rec.originalName) := rfl

/-- One multi-upload iteration, characterized by `itemOutcome`: it keeps
the bucket availability, fails with exactly the predicted per-item error
entry, and succeeds with the view of a record carrying the item's trimmed
name. -/
theorem uploadOneOfMany_spec (body : UploadBody) (now : Nat) (bs : BlobStore)
    (ms : MetaStore) (f : UploadReq) :
    ((uploadOneOfMany body now (bs, ms) f).1.1.available = bs.available) ∧
    (match itemOutcome bs.available body f with
     | some msg =>
        (uploadOneOfMany body now (bs, ms) f).2 = .error ⟨f.originalname, msg⟩
     | none => ∃ rec, (uploadOneOfMany body now (bs, ms) f).2 = .ok (multiUploadView rec) ∧
        rec.originalName = jsTrim f.originalname) := by
  cases hav : bs.available with
  | false => simp [uploadOneOfMany, uploadToGridFS, hav, itemOutcome]
  | true =>
    cases hval : validateFileRecord
        (normalizeRecord (mkUploadRecord f body ms.nextId bs.nextId now)) with
    | nil =>
      have h0 : validateFileRecord (normalizeRecord (mkUploadRecord f body 0 0 0)) = [] := by
        rw [← validate_mk_const f body ms.nextId bs.nextId now]; exact hval
      refine ⟨by simp [uploadOneOfMany, uploadToGridFS, hav, saveFile, hval], ?_⟩
      simp only [itemOutcome, hav, h0, if_true]
      exact ⟨normalizeRecord (mkUploadRecord f body ms.nextId bs.nextId now),
        by simp [uploadOneOfMany, uploadToGridFS, hav, saveFile, hval], rfl⟩
    | cons e es =>
      have h0 : validateFileRecord (normalizeRecord (mkUploadRecord f body 0 0 0)) = e :: es := by
        rw [← validate_mk_const f body ms.nextId bs.nextId now]; exact hval
      refine ⟨by simp [uploadOneOfMany, uploadToGridFS, hav, saveFile, hval], ?_⟩
      simp only [itemOutcome, hav, h0, if_true]
      simp [uploadOneOfMany, uploadToGridFS, hav, saveFile, hval]

/-- The multi-upload loop: the error entries are exactly the failing
items in order — each with its original filename and predicted message —
the success views line up with the succeeding items in order, and the
bucket availability is preserved. -/
theorem uploadLoop_spec (body : UploadBody) (now : Nat) :
    ∀ (files : List UploadReq) (bs : BlobStore) (ms : MetaStore),
    (uploadLoop body now files (bs, ms)).1.2 =
      (files.filter (fun f => (itemOutcome bs.available body f).isSome)).map
        (fun f => ⟨f.originalname, (itemOutcome bs.available body f).getD ""⟩) ∧
    (uploadLoop body now files (bs, ms)).1.1.map (fun v => v.lookup "originalName") =
      (files.filter (fun f => !(itemOutcome bs.available body f).isSome)).map
        (fun f => some (JVal.s (jsTrim f.originalname))) ∧
    (uploadLoop body now files (bs, ms)).2.1.available = bs.available := by
  intro files
  induction files with
  | nil => intro bs ms; simp [uploadLoop]
  | cons f rest ih =>
    intro bs ms
    obtain ⟨havail, hout⟩ := uploadOneOfMany_spec body now bs ms f
    obtain ⟨ihErr, ihFiles, ihAvail⟩ :=
      ih (uploadOneOfMany body now (bs, ms) f).1.1 (uploadOneOfMany body now (bs, ms) f).1.2
    cases hio : itemOutcome bs.available body f with
    | some msg =>
      rw [hio] at hout
      refine ⟨?_, ?_, ?_⟩
      · rw [uploadLoop, hout]
        simp only [List.filter_cons, hio, Option.isSome_some, if_true]
        simp [ihErr, havail, hio]
      · rw [uploadLoop, hout]
        simp only [List.filter_cons, hio]
        simp [ihFiles, havail, hio]
      · rw [uploadLoop, hout]
        simp [ihAvail, havail]
    | none =>
      rw [hio] at hout
      obtain ⟨rec, hok, hname⟩ := hout
      refine ⟨?_, ?_, ?_⟩
      · rw [uploadLoop, hok]
        simp only [List.filter_cons, hio]
        simp [ihErr, havail, hio]
      · rw [uploadLoop, hok]
        simp only [List.filter_cons, hio]
        simp [ihFiles, havail, hio, multiUploadView_lookup_name, hname]
      · rw [uploadLoop, hok]
        simp [ihAvail, havail]

/-- C4: a multi-upload over a non-empty payload list answers 201; its
per-item failures are exactly the failing payloads in order, each entry
holding the payload's original filename and the error message, and the
succeeded views line up, in order, with the payloads that succeed —
a failure on one payload does not abort the remaining ones. -/
theorem c4_multi_isolated (s : Sys) (files : List UploadReq) (body : UploadBody)
    (hdb : s.dbReady = true) (hne : files ≠ []) :
    (uploadMultipleFiles s files body).1.status = 201 ∧
    (uploadMultipleFiles s files body).1.success = true ∧
    (uploadMultipleFiles s files body).1.errors.getD [] =
      (files.filter (fun f => (itemOutcome s.blob.available body f).isSome)).map
        (fun f => ⟨f.originalname, (itemOutcome s.blob.available body f).getD ""⟩) ∧
    (uploadMultipleFiles s files body).1.files.map (fun v => v.lookup "originalName") =
      (files.filter (fun f => !(itemOutcome s.blob.available body f).isSome)).map
        (fun f => some (JVal.s (jsTrim f.originalname))) := by
  match files, hne with
  | f :: rest, _ =>
    obtain ⟨herr, hfiles, -⟩ := uploadLoop_spec body s.now (f :: rest) s.blob s.meta
    have hget : ∀ (l : List FileError),
        (if l.isEmpty then (none : Option (List FileError)) else some l).getD [] = l := by
      intro l; cases l <;> simp
    refine ⟨by simp [uploadMultipleFiles, hdb], by simp [uploadMultipleFiles, hdb], ?_, ?_⟩
    · rw [← herr]
      simp only [uploadMultipleFiles, hdb, if_true]
      exact hget _
    · rw [← hfiles]
      simp only [uploadMultipleFiles, hdb, if_true]

/-- C4 witness: one valid payload and one with an empty original name —
the response pairs one success with one error entry, in order. -/
theorem c4_multi_isolated_witness :
    (uploadMultipleFiles exSys [exFile, exBadNameFile] exBody).1.status = 201 ∧
    (uploadMultipleFiles exSys [exFile, exBadNameFile] exBody).1.success = true ∧
    (uploadMultipleFiles exSys [exFile, exBadNameFile] exBody).1.errors.getD [] =
      ([exFile, exBadNameFile].filter
        (fun f => (itemOutcome exSys.blob.available exBody f).isSome)).map
        (fun f => ⟨f.originalname, (itemOutcome exSys.blob.available exBody f).getD ""⟩) ∧
    (uploadMultipleFiles exSys [exFile, exBadNameFile] exBody).1.files.map
        (fun v => v.lookup "originalName") =
      ([exFile, exBadNameFile].filter
        (fun f => !(itemOutcome exSys.blob.available exBody f).isSome)).map
        (fun f => some (JVal.s (jsTrim f.originalname))) :=
  c4_multi_isolated exSys [exFile, exBadNameFile] exBody rfl (by decide)

/-- A successful multi-upload item resolves with a multi-upload view. -/
theorem uploadOneOfMany_ok_shape (body : UploadBody) (now : Nat)
    (st : BlobStore × MetaStore) (f : UploadReq) (w : JObj)
    (h : (uploadOneOfMany body now st f).2 = .ok w) : ∃ rec, w = multiUploadView rec := by
  obtain ⟨-, hout⟩ := uploadOneOfMany_spec body now st.1 st.2 f
  cases hio : itemOutcome st.1.available body f with
  | some msg =>
    rw [hio] at hout
    rw [h] at hout
    simp at hout
  | none =>
    rw [hio] at hout
    obtain ⟨rec, hok, -⟩ := hout
    rw [h] at hok
    exact ⟨rec, by injection hok⟩

/-- Every view collected by the multi-upload loop is a multi-upload view
of some record. -/
theorem uploadLoop_files_shape (body : UploadBody) (now : Nat) :
    ∀ (files : List UploadReq) (st : BlobStore × MetaStore) (v : JObj),
    v ∈ (uploadLoop body now files st).1.1 → ∃ rec, v = multiUploadView rec := by
  intro files
  induction files with
  | nil => intro st v hv; simp [uploadLoop] at hv
  | cons f rest ih =>
    intro st v hv
    rw [uploadLoop] at hv
    cases hstep : (uploadOneOfMany body now st f).2 with
    | ok w =>
      rw [hstep] at hv
      simp only [List.mem_cons] at hv
      rcases hv with rfl | hv
      · exact uploadOneOfMany_ok_shape body now st f v hstep
      · exact ih _ v hv
    | error e =>
      rw [hstep] at hv
      exact ih _ v hv

/-- The single-upload endpoint only ever attaches a single-upload view. -/
theorem uploadFile_file_shape (s : Sys) (f : UploadReq) (body : UploadBody) (v : JObj)
    (h : (uploadFile s (some f) body).1.file = some v) : ∃ rec, v = uploadFileView rec := by
  rw [uploadFile] at h
  by_cases hdb : s.dbReady = true
  · simp only [hdb, if_true] at h
    cases hav : s.blob.available with
    | false => simp [uploadToGridFS, hav] at h
    | true =>
      cases hval : validateFileRecord
          (normalizeRecord (mkUploadRecord f body s.meta.nextId s.blob.nextId s.now)) with
      | nil =>
        simp [uploadToGridFS, hav, saveFile, hval] at h
        exact ⟨_, h.symm⟩
      | cons e es => simp [uploadToGridFS, hav, saveFile, hval] at h
  · simp only [Bool.not_eq_true] at hdb
    simp [hdb] at h

/-- The keys of the single-upload view. -/
theorem uploadFileView_keys (rec : FileRecord) :
    jKeys (uploadFileView rec) =
      ["id", "originalName", "mimeType", "size", "category", "description", "uploadDate"] := rfl

/-- The keys of the listing view. -/
theorem listFileView_keys (rec : FileRecord) :
    jKeys (listFileView rec) =
      ["id", "originalName", "mimeType", "size", "sizeFormatted", "category",
       "description", "uploadDate"] := rfl

/-- The keys of the multi-upload view. -/
theorem multiUploadView_keys (rec : FileRecord) :
    jKeys (multiUploadView rec) =
      ["id", "originalName", "mimeType", "size", "category", "uploadDate"] := rfl

/-- C5 amended: no endpoint response ever exposes the `gridfsId` field;
the single-upload, list, filter and fetch views expose every other
public record field, but the multi-upload success view additionally
omits `description`. -/
theorem c5_views (s : Sys) :
    (∀ (f : UploadReq) (body : UploadBody) (v : JObj),
      (uploadFile s (some f) body).1.file = some v →
        "gridfsId" ∉ jKeys v ∧ ∀ k ∈ specPublicFields, k ∈ jKeys v) ∧
    (∀ v ∈ (getAllFiles s).1.files,
        "gridfsId" ∉ jKeys v ∧ ∀ k ∈ specPublicFields, k ∈ jKeys v) ∧
    (∀ (cat : String) (v : JObj), v ∈ (getFilesByCategory s cat).1.files →
        "gridfsId" ∉ jKeys v ∧ ∀ k ∈ specPublicFields, k ∈ jKeys v) ∧
    (∀ (id : RecordId) (v : JObj), (getFileById s id).1.file = some v →
        "gridfsId" ∉ jKeys v ∧ ∀ k ∈ specPublicFields, k ∈ jKeys v) ∧
    (∀ (files : List UploadReq) (body : UploadBody) (v : JObj),
      v ∈ (uploadMultipleFiles s files body).1.files →
        "gridfsId" ∉ jKeys v ∧ "description" ∉ jKeys v ∧
          ∀ k ∈ specPublicFields, k ≠ "description" → k ∈ jKeys v) := by
  refine ⟨?_, ?_, ?_, ?_, ?_⟩
  · intro f body v h
    obtain ⟨rec, rfl⟩ := uploadFile_file_shape s f body v h
    rw [uploadFileView_keys]
    exact ⟨by decide, by decide⟩
  · intro v hv
    rw [getAllFiles] at hv
    by_cases hdb : s.dbReady = true
    · simp only [hdb, if_true] at hv
      obtain ⟨rec, -, rfl⟩ := List.mem_map.mp hv
      rw [listFileView_keys]
      exact ⟨by decide, by decide⟩
    · simp only [Bool.not_eq_true] at hdb
      simp [hdb] at hv
  · intro cat v hv
    rw [getFilesByCategory] at hv
    by_cases hdb : s.dbReady = true
    · simp only [hdb, if_true] at hv
      obtain ⟨rec, -, rfl⟩ := List.mem_map.mp hv
      rw [listFileView_keys]
      exact ⟨by decide, by decide⟩
    · simp only [Bool.not_eq_true] at hdb
      simp [hdb] at hv
  · intro id v h
    rw [getFileById] at h
    by_cases hdb : s.dbReady = true
    · simp only [hdb, if_true] at h
      cases hfind : findRecord s.meta id with
      | none => rw [hfind] at h; simp at h
      | some rec =>
        rw [hfind] at h
        simp only [Option.some.injEq] at h
        subst h
        rw [listFileView_keys]
        exact ⟨by decide, by decide⟩
    · simp only [Bool.not_eq_true] at hdb
      simp [hdb] at h
  · intro files body v hv
    rw [uploadMultipleFiles.eq_def] at hv
    by_cases hdb : s.dbReady = true
    · simp only [hdb, if_true] at hv
      cases files with
      | nil => simp at hv
      | cons f rest =>
        simp only at hv
        obtain ⟨rec, rfl⟩ := uploadLoop_files_shape body s.now (f :: rest) (s.blob, s.meta) v hv
        rw [multiUploadView_keys]
        exact ⟨by decide, by decide, by decide⟩
    · simp only [Bool.not_eq_true] at hdb
      simp [hdb] at hv

/-- C5 counterexample: a multi-upload whose one payload carries a
description returns one record view, and that view does not include
every non-`gridfsId` record field — `description` is missing. -/
theorem c5_counterexample :
    (uploadMultipleFiles exSys [exFile] exBody).1.files.length = 1 ∧
    ((uploadMultipleFiles exSys [exFile] exBody).1.files.all
      (fun v => specPublicFields.all (fun k => (jKeys v).contains k))) = false := by
  decide

/-- C5 witness: the listing-view branch of the amended statement at a
concrete record of the populated system. -/
theorem c5_views_witness :
    "gridfsId" ∉ jKeys (listFileView exRecOrphan) ∧
      ∀ k ∈ specPublicFields, k ∈ jKeys (listFileView exRecOrphan) :=
  (c5_views exSysOrphan).2.1 (listFileView exRecOrphan) (by decide)

end FileUploaders
